import Mathlib

/-!
# ShellMonitor core — shallow embedding

Shallow embedding of the core state machine and decision logic of
`shell-monitor-app/shell_tracker_core.py` (class `ShellTrackerCore`), with
theorems settling the frozen claims about it.

Modelling conventions:
* Python `float` values (prices, indicator values, scores, percentages) are
  modelled as `ℚ`; `None`-able values as `Option`.
* Python `int(x)` on the non-negative values appearing here is `Rat.floor`.
* Qt signal emissions are modelled as an explicit list of `Event` values
  returned by each operation.  Chart-refresh emissions (`chart_data_ready`)
  and the embedded `get_klines` display refreshes are presentation-only and
  are elided from the event lists; no claim mentions them.
* The tracker's position field takes only the Python values `None` and
  `'LONG'`, modelled as `Option Pos` with `Pos.long` the single side.
-/

namespace ShellMonitor

/-- The only open-position side the source ever stores (`'LONG'`). -/
inductive Pos where
  | long
  deriving DecidableEq, Repr

/-- Position-related mutable state of `ShellTrackerCore`
(`self.position`, `self.entry_price`). -/
structure TrackerState where
  position : Option Pos
  entry_price : Option ℚ
  deriving DecidableEq, Repr

/-- `__init__`: `self.position = None`, `self.entry_price = None`. -/
def initState : TrackerState := { position := none, entry_price := none }

/-- The `trading` section of the JSON config used by the core logic. -/
structure TradingConfig where
  stop_loss_percent : ℚ
  take_profit_percent : ℚ
  sentiment_influence_enabled : Bool
  sentiment_influence_weight : ℚ
  deriving DecidableEq, Repr

/-- Qt signal emissions observable from the core (display-only
`chart_data_ready` emissions elided). -/
inductive Event where
  | priceUpdated (price pct_change : ℚ)
  | alertTriggered (pct_change : ℚ)
  | tradeSignal (kind : String) (price : ℚ)
  | stopTriggered (kind : String) (price profit_percent : ℚ)
  | signalStatus (kind : String) (confidence : ℤ)
  deriving DecidableEq, Repr

/-- `execute_trade(signal, price)`: simulated trade bookkeeping.
`if not price: return` — Python falsiness of `price` is `none` or `some 0`.
A `BUY` requires `self.position is None` and records the entry price;
a `SELL` requires `self.position == 'LONG'`, computes the realized profit
percentage and clears the position. -/
def execute_trade (s : TrackerState) (signal : String) (price : Option ℚ) :
    TrackerState × List Event :=
  match price with
  | none => (s, [])
  | some p =>
    if p = 0 then (s, [])
    else if signal = "BUY" ∧ s.position = none then
      ({ position := some Pos.long, entry_price := some p },
        [Event.tradeSignal "BUY" p])
    else if signal = "SELL" ∧ s.position = some Pos.long then
      ({ position := none, entry_price := none },
        [Event.tradeSignal "SELL" p])
    else (s, [])

/-- `check_stop_conditions(current_price)`: while long with a known entry
price and a numeric current price, fire stop-loss when the price is at or
below `entry × (1 − stop_loss_percent/100)`, else take-profit when at or
above `entry × (1 + take_profit_percent/100)`; either closes the position
and reports `profit_percent = (price − entry)/entry × 100`.  Returns the
new state, the emissions, and the Python return value (`True` iff the
position was closed). -/
def check_stop_conditions (cfg : TradingConfig) (s : TrackerState)
    (current_price : Option ℚ) : TrackerState × List Event × Bool :=
  match s.position, s.entry_price, current_price with
  | some Pos.long, some entry, some price =>
    let stop_loss_percent := cfg.stop_loss_percent / 100
    let take_profit_percent := cfg.take_profit_percent / 100
    let stop_loss_price := entry * (1 - stop_loss_percent)
    let take_profit_price := entry * (1 + take_profit_percent)
    let profit_percent := (price - entry) / entry * 100
    if price ≤ stop_loss_price then
      ({ position := none, entry_price := none },
        [Event.stopTriggered "STOP_LOSS" price profit_percent], true)
    else if price ≥ take_profit_price then
      ({ position := none, entry_price := none },
        [Event.stopTriggered "TAKE_PROFIT" price profit_percent], true)
    else (s, [], false)
  | _, _, _ => (s, [], false)

/-- One candle row of the DataFrame handed to `check_signals`, restricted to
the columns that function reads; a missing / NaN indicator value is `none`. -/
structure Row where
  close : Option ℚ
  ma5 : Option ℚ
  ma25 : Option ℚ
  rsi : Option ℚ
  macd : Option ℚ
  macd_signal : Option ℚ
  deriving DecidableEq, Repr

/-- Sentiment-related mutable state of `ShellTrackerCore`
(`self.current_sentiment`, `self.sentiment_score`). -/
structure SentimentState where
  current_sentiment : Option String
  sentiment_score : ℚ
  deriving DecidableEq, Repr

/-- Python truthiness of the optional sentiment string
(`1 if self.current_sentiment else 0`): `None` and `''` are falsy. -/
def truthyStr : Option String → Bool
  | none => false
  | some s => !s.isEmpty

/-- `check_signals(df)`: returns the Python return value
(`'BUY'`/`'SELL'`/`None`) together with the `signal_status_updated`
emission.  Gates: an empty frame or fewer than 26 rows, or any required
indicator missing on the latest (`df.iloc[-1]`) or previous (`df.iloc[-2]`)
row, short-circuits to no signal with no emission.  Otherwise scores are
`buy_score = (1 if technical buy else 0) + sentiment_factor` and
`sell_score = (-1 if technical sell else 0) - sentiment_factor` with
thresholds `0.6` / `-0.6`; the confidence integer is computed exactly as in
the source (`0` unless a technical signal is true). -/
def check_signals (cfg : TradingConfig) (sent : SentimentState)
    (df : List Row) : Option String × List Event :=
  if df.length < 26 then (none, [])
  else
    match df.reverse with
    | latest :: prev :: _ =>
      if latest.close.isNone || latest.ma5.isNone || latest.ma25.isNone ||
          latest.rsi.isNone || latest.macd.isNone ||
          latest.macd_signal.isNone || prev.ma5.isNone ||
          prev.ma25.isNone || prev.macd.isNone ||
          prev.macd_signal.isNone then (none, [])
      else
        let _price := latest.close.getD 0
        let ma5 := latest.ma5.getD 0
        let ma25 := latest.ma25.getD 0
        let rsi := latest.rsi.getD 0
        let macd_val := latest.macd.getD 0
        let macd_sig := latest.macd_signal.getD 0
        let prev_ma5 := prev.ma5.getD 0
        let prev_ma25 := prev.ma25.getD 0
        let prev_macd_val := prev.macd.getD 0
        let prev_macd_sig := prev.macd_signal.getD 0
        let buy_signal_tech : Bool :=
          (decide (prev_ma5 ≤ prev_ma25) && decide (ma5 > ma25)) &&
            decide (rsi < 50) &&
            (decide (prev_macd_val ≤ prev_macd_sig) &&
              decide (macd_val > macd_sig))
        let sell_signal_tech : Bool :=
          (decide (prev_ma5 ≥ prev_ma25) && decide (ma5 < ma25)) &&
            decide (rsi > 50) &&
            (decide (prev_macd_val ≥ prev_macd_sig) &&
              decide (macd_val < macd_sig))
        let sentiment_factor : ℚ :=
          if cfg.sentiment_influence_enabled ∧
              sent.current_sentiment ≠ none then
            sent.sentiment_score * cfg.sentiment_influence_weight
          else 0
        let buy_score : ℚ :=
          (if buy_signal_tech then 1 else 0) + sentiment_factor
        let sell_score : ℚ :=
          (if sell_signal_tech then -1 else 0) - sentiment_factor
        let confidence : ℤ :=
          if buy_signal_tech || sell_signal_tech then
            let total_score := if buy_score > 0 then buy_score else sell_score
            let total_factors : ℚ :=
              1 + (if truthyStr sent.current_sentiment then 1 else 0)
            ⌊min 100 (|total_score| / (total_factors * 2) * 100)⌋
          else 0
        if buy_score ≥ 6/10 then
          (some "BUY", [Event.signalStatus "BUY" confidence])
        else if sell_score ≤ -(6/10) then
          (some "SELL", [Event.signalStatus "SELL" confidence])
        else
          (none, [Event.signalStatus "NEUTRAL"
            (max 20 (100 - ⌊|buy_score - sell_score| * 50⌋))])
    | _ => (none, [])

/-- `check_account_balance` (successful-path effect on the position state):
when the free asset balance exceeds `0.1`, the position is marked `'LONG'`
while `entry_price` is deliberately left unchanged (`None` on a fresh
session, since the original holding cost is unknown). -/
def check_account_balance (s : TrackerState) (free_balance : ℚ) :
    TrackerState :=
  if free_balance > 1/10 then { s with position := some Pos.long } else s

/-- Loop step lines 899–905: while flat, evaluate `check_signals` and, on a
`'BUY'` result, execute the simulated trade at the current price. -/
def signal_check_step (cfg : TradingConfig) (sent : SentimentState)
    (s : TrackerState) (df : List Row) (current_price : Option ℚ) :
    TrackerState × List Event :=
  if s.position = none then
    let r := check_signals cfg sent df
    if r.1 = some "BUY" then
      let t := execute_trade s "BUY" current_price
      (t.1, r.2 ++ t.2)
    else (s, r.2)
  else (s, [])

/-- The position-affecting operations of the tracker, as invoked by the
monitoring loop and the balance-refresh thread. -/
inductive Op where
  | trade (signal : String) (price : Option ℚ)
  | stopCheck (price : Option ℚ)
  | balanceCheck (free_balance : ℚ)
  deriving DecidableEq, Repr

/-- Whether an operation is the balance-inference operation. -/
def Op.isBalanceCheck : Op → Bool
  | Op.balanceCheck _ => true
  | _ => false

/-- One operation applied to the tracker state. -/
def step (cfg : TradingConfig) (s : TrackerState) :
    Op → TrackerState × List Event
  | Op.trade signal price => execute_trade s signal price
  | Op.stopCheck price =>
    let r := check_stop_conditions cfg s price
    (r.1, r.2.1)
  | Op.balanceCheck free_balance => (check_account_balance s free_balance, [])

/-- Run a sequence of operations from a state, collecting all emissions. -/
def run (cfg : TradingConfig) : TrackerState → List Op → TrackerState × List Event
  | s, [] => (s, [])
  | s, op :: ops =>
    let r := step cfg s op
    let r2 := run cfg r.1 ops
    (r2.1, r.2 ++ r2.2)

/-- Events that open a position. -/
def isOpenEvent : Event → Bool
  | Event.tradeSignal kind _ => kind == "BUY"
  | _ => false

/-- Events that close a position (`SELL`, stop-loss, take-profit). -/
def isCloseEvent : Event → Bool
  | Event.tradeSignal kind _ => kind == "SELL"
  | Event.stopTriggered _ _ _ => true
  | _ => false

/-- Open/closed flag after one event. -/
def posFlagAfter (f : Bool) (e : Event) : Bool :=
  if isOpenEvent e then true else if isCloseEvent e then false else f

/-- Open/closed flag after a list of events. -/
def posFlagAfterList (f : Bool) (es : List Event) : Bool :=
  es.foldl posFlagAfter f

/-- Position events are well bracketed starting from flag `f`: an opening
event occurs only while closed, a closing event only while open — i.e. the
BUY / close events strictly alternate, starting with BUY when `f = false`. -/
def wellBracketed : Bool → List Event → Bool
  | _, [] => true
  | f, e :: es =>
    (if isOpenEvent e then !f else if isCloseEvent e then f else true) &&
      wellBracketed (posFlagAfter f e) es

/-- The open/closed flag a tracker state corresponds to. -/
def posFlag (s : TrackerState) : Bool := s.position.isSome

/-- `_get_simulated_price`: the persisted state is
`self._last_simulated_price` (`none` before the first fallback call).  The
first call seeds at `1.2345`; later calls multiply the last value by
`(1 + change)` where `change` is the `random.uniform(-0.005, 0.005)` draw,
and persist the new value.  Returns (price, new persisted state). -/
def get_simulated_price (last_simulated_price : Option ℚ) (change : ℚ) :
    ℚ × Option ℚ :=
  match last_simulated_price with
  | some last =>
    let new_price := last * (1 + change)
    (new_price, some new_price)
  | none => (12345/10000, some (12345/10000))

/-- The `(processed_news, sentiment, score)` triple produced by the
sentiment analysis. -/
abbrev NewsResult := String × String × ℚ

/-- `self.news_cache`: association list from the sorted headline list
(modelling the Python key `hash(tuple(sorted(headlines)))`) to
(insertion time, cached triple).  Insertion prepends, and lookup takes the
first match, giving the observable lookup semantics of dict assignment. -/
abbrev NewsCache := List (List String × ℚ × NewsResult)

/-- Cache lookup by key. -/
def cacheLookup : NewsCache → List String → Option (ℚ × NewsResult)
  | [], _ => none
  | (k, t, r) :: rest, key =>
    if k = key then some (t, r) else cacheLookup rest key

/-- Cache write `self.news_cache[cache_key] = (current_time, result)`. -/
def cacheInsert (c : NewsCache) (key : List String) (t : ℚ) (r : NewsResult) :
    NewsCache :=
  (key, t, r) :: c

/-- The cache key `tuple(sorted(headlines))`. -/
def sortKey (headlines : List String) : List String :=
  List.insertionSort (· ≤ ·) headlines

/-- The news-related parts of the `api.news` config section. -/
structure NewsConfig where
  news_enabled : Bool
  deepseek_key_present : Bool
  deriving DecidableEq, Repr

/-- Outcome of one attempted DeepSeek HTTP round trip.  The regex
extraction and defaulting of the three labelled response sections
(lines 694–731 of the source) is abstracted: `parsed` carries the triple
that stage produces from a received response. -/
inductive DeepSeekOutcome where
  | netError (msg : String)
  | badFormat (msg : String)
  | parsed (result : NewsResult)
  deriving DecidableEq, Repr

/-- `call_deepseek_for_analysis(headlines)`: cache check first (a fresh
entry short-circuits everything), then the key-configured and empty-input
guards, then the network call; only a successfully parsed response is
cached.  Returns (triple, new cache, whether the HTTP endpoint was
called). -/
def call_deepseek_for_analysis (cfg : NewsConfig) (cache : NewsCache)
    (current_time : ℚ) (headlines : List String)
    (outcome : DeepSeekOutcome) : NewsResult × NewsCache × Bool :=
  let cache_key := sortKey headlines
  let hit : Option NewsResult :=
    match cacheLookup cache cache_key with
    | some (cache_time, cache_data) =>
      if current_time - cache_time < 3600 then some cache_data else none
    | none => none
  match hit with
  | some cache_data => (cache_data, cache, false)
  | none =>
    if ¬cfg.deepseek_key_present then
      (("DeepSeek API未配置。", "neutral", 0), cache, false)
    else if headlines = [] then
      (("无新闻内容可供分析。", "neutral", 0), cache, false)
    else
      match outcome with
      | DeepSeekOutcome.netError msg =>
        (("调用 DeepSeek 失败 (网络错误): " ++ msg, "neutral", 0), cache, true)
      | DeepSeekOutcome.badFormat msg =>
        (("解析 DeepSeek 响应失败: " ++ msg, "neutral", 0), cache, true)
      | DeepSeekOutcome.parsed result =>
        (result, cacheInsert cache cache_key current_time result, true)

/-- `fetch_and_process_news()`: headline extraction from the three source
groups (GNews, NewsAPI, RSS) is abstracted as the already-extracted
per-source headline lists; a failed source contributes `[]`.  When news is
disabled the sentiment slot is Python `None` (`none` here); when the
aggregate is empty a fixed triple is returned without invoking the
analysis; otherwise headlines are deduplicated preserving first occurrence
(`dict.fromkeys`) and handed to `call_deepseek_for_analysis`.  The third
component records whether the sentiment HTTP endpoint was called. -/
def fetch_and_process_news (cfg : NewsConfig) (cache : NewsCache)
    (current_time : ℚ)
    (gnews_headlines newsapi_headlines rss_headlines : List String)
    (outcome : DeepSeekOutcome) :
    (String × Option String × ℚ) × NewsCache × Bool :=
  if ¬cfg.news_enabled then
    (("新闻获取功能已禁用。", none, 0), cache, false)
  else
    let all_headlines :=
      gnews_headlines ++ newsapi_headlines ++ rss_headlines
    if all_headlines = [] then
      (("未能获取到相关新闻。", some "neutral", 0), cache, false)
    else
      let unique_headlines := all_headlines.eraseDups
      let r := call_deepseek_for_analysis cfg cache current_time
        unique_headlines outcome
      ((r.1.1, some r.1.2.1, r.1.2.2), r.2.1, r.2.2)

/-- Session state reset by `start_monitoring` before spawning the loop. -/
structure SessionState where
  stop_flag : Bool
  price_log : List (ℚ × ℚ)
  previous_price : Option ℚ
  deriving DecidableEq, Repr

/-- `start_monitoring` session reset: `self.stop_flag = False`,
`self.price_log = []`, `self.previous_price = None`. -/
def start_monitoring_reset (_s : SessionState) : SessionState :=
  { stop_flag := false, price_log := [], previous_price := none }

/-- Loop lines 854–870 for one fetched numeric price: `pct_change`
defaults to `0.0` and is recomputed only when a positive previous price
exists; a `price_updated` emission always follows, and an
`alert_triggered` emission additionally requires a previous price and
`|pct_change| ≥ price_alert_threshold`.  Returns (pct_change, events). -/
def price_update_step (price_alert_threshold : ℚ)
    (previous_price : Option ℚ) (current_price : ℚ) : ℚ × List Event :=
  let pct_change : ℚ :=
    match previous_price with
    | some prev =>
      if prev > 0 then (current_price - prev) / prev * 100 else 0
    | none => 0
  let update := [Event.priceUpdated current_price pct_change]
  let alert :=
    match previous_price with
    | some _ =>
      if |pct_change| ≥ price_alert_threshold then
        [Event.alertTriggered pct_change]
      else []
    | none => []
  (pct_change, update ++ alert)

/-! ## Theorems -/

/-- C1: while long with entry price `entry` and a numeric current price,
`check_stop_conditions` fires stop-loss exactly when
`price ≤ entry × (1 − stop_loss_percent/100)`, otherwise fires take-profit
exactly when `price ≥ entry × (1 + take_profit_percent/100)`; at most one
fires per check (stop-loss first), the fired event carries
`profit_percent = (price − entry)/entry × 100`, and the position resets to
flat with the entry price cleared. -/
theorem check_stop_conditions_spec (cfg : TradingConfig) (s : TrackerState)
    (entry price : ℚ) (hpos : s.position = some Pos.long)
    (hentry : s.entry_price = some entry) :
    (price ≤ entry * (1 - cfg.stop_loss_percent / 100) →
      check_stop_conditions cfg s (some price) =
        ({ position := none, entry_price := none },
          [Event.stopTriggered "STOP_LOSS" price
            ((price - entry) / entry * 100)], true)) ∧
    (¬ price ≤ entry * (1 - cfg.stop_loss_percent / 100) →
      price ≥ entry * (1 + cfg.take_profit_percent / 100) →
      check_stop_conditions cfg s (some price) =
        ({ position := none, entry_price := none },
          [Event.stopTriggered "TAKE_PROFIT" price
            ((price - entry) / entry * 100)], true)) ∧
    (¬ price ≤ entry * (1 - cfg.stop_loss_percent / 100) →
      ¬ price ≥ entry * (1 + cfg.take_profit_percent / 100) →
      check_stop_conditions cfg s (some price) = (s, [], false)) := by
  rcases s with ⟨pos, ep⟩
  simp only at hpos hentry
  subst hpos
  subst hentry
  refine ⟨fun h1 => ?_, fun h1 h2 => ?_, fun h1 h2 => ?_⟩
  · simp [check_stop_conditions, h1]
  · simp [check_stop_conditions, h1, h2]
  · simp [check_stop_conditions, h1, h2]

/-- Witness for C1 at Scenario C: entry 100, stop-loss 5% ⇒ price 94 fires
a stop-loss event with profit −6 and resets the position. -/
theorem check_stop_conditions_spec_witness :
    check_stop_conditions ⟨5, 10, true, 1/2⟩
        ⟨some Pos.long, some 100⟩ (some 94) =
      ({ position := none, entry_price := none },
        [Event.stopTriggered "STOP_LOSS" 94 (-6)], true) := by
  have h := (check_stop_conditions_spec ⟨5, 10, true, 1/2⟩
    ⟨some Pos.long, some 100⟩ 100 94 rfl rfl).1 (by norm_num)
  rw [h]
  norm_num

/-- C7: the first fallback call returns the fixed seed price `1.2345` and
persists it; every later fallback call with draw `change` within
`random.uniform`'s bounds `[-0.005, 0.005]` returns the previous simulated
value times `(1 + change)` — hence within ±0.5% of it — and persists the
new value. -/
theorem simulated_price_spec (last : Option ℚ) (change : ℚ)
    (hlo : -(5/1000) ≤ change) (hhi : change ≤ 5/1000) :
    (get_simulated_price none change).1 = 12345/10000 ∧
    (get_simulated_price none change).2 = some (12345/10000) ∧
    ∀ p, last = some p →
      (get_simulated_price last change).1 = p * (1 + change) ∧
      (get_simulated_price last change).2 = some (p * (1 + change)) ∧
      |(get_simulated_price last change).1 - p| ≤ 5/1000 * |p| := by
  refine ⟨by simp [get_simulated_price], by simp [get_simulated_price],
    fun p hp => ?_⟩
  subst hp
  refine ⟨rfl, rfl, ?_⟩
  have habs : |change| ≤ 5/1000 := abs_le.mpr ⟨hlo, hhi⟩
  have h1 : p * (1 + change) - p = p * change := by ring
  calc |(get_simulated_price (some p) change).1 - p|
      = |p * change| := by rw [show (get_simulated_price (some p) change).1
          = p * (1 + change) from rfl, h1]
    _ = |p| * |change| := abs_mul p change
    _ ≤ |p| * (5/1000) := by
        exact mul_le_mul_of_nonneg_left habs (abs_nonneg p)
    _ = 5/1000 * |p| := mul_comm _ _

/-- Witness for C7 at `last = 2`, `change = 1/1000`. -/
theorem simulated_price_spec_witness :
    (get_simulated_price none (1/1000)).1 = 12345/10000 ∧
    (get_simulated_price (some 2) (1/1000)).1 = 2 * (1 + 1/1000) := by
  refine ⟨(simulated_price_spec (some 2) (1/1000)
    (by norm_num) (by norm_num)).1, ?_⟩
  exact ((simulated_price_spec (some 2) (1/1000)
    (by norm_num) (by norm_num)).2.2 2 rfl).1

/-- C9: with news fetching enabled, when every source yields no headlines
(the aggregated list is empty), `fetch_and_process_news` returns exactly
`("未能获取到相关新闻。", "neutral", 0.0)`, leaves the cache unchanged, and
does not call the sentiment endpoint. -/
theorem empty_headlines_news_spec (cfg : NewsConfig) (cache : NewsCache)
    (t : ℚ) (gnews_headlines newsapi_headlines rss_headlines : List String)
    (outcome : DeepSeekOutcome) (hen : cfg.news_enabled = true)
    (hg : gnews_headlines = []) (hn : newsapi_headlines = [])
    (hr : rss_headlines = []) :
    fetch_and_process_news cfg cache t gnews_headlines newsapi_headlines
        rss_headlines outcome =
      (("未能获取到相关新闻。", some "neutral", 0), cache, false) := by
  subst hg
  subst hn
  subst hr
  simp [fetch_and_process_news, hen]

/-- Witness for C9 at a concrete enabled config with all sources empty. -/
theorem empty_headlines_news_spec_witness :
    fetch_and_process_news ⟨true, true⟩ [] 0 [] [] []
        (DeepSeekOutcome.netError "boom") =
      (("未能获取到相关新闻。", some "neutral", 0), [], false) :=
  empty_headlines_news_spec ⟨true, true⟩ [] 0 [] [] []
    (DeepSeekOutcome.netError "boom") rfl rfl rfl rfl

/-- C10: `start_monitoring` resets `previous_price` to `None`, and on the
first loop iteration (no previous price) the price-update event fires with
`pct_change = 0.0` and no price-alert event fires, for every fetched price
and every alert threshold; hence a price alert can only fire from the
second sample onward. -/
theorem first_iteration_no_alert (s : SessionState)
    (price_alert_threshold current_price : ℚ) :
    (start_monitoring_reset s).previous_price = none ∧
    price_update_step price_alert_threshold
        (start_monitoring_reset s).previous_price current_price =
      (0, [Event.priceUpdated current_price 0]) := by
  exact ⟨rfl, by simp [start_monitoring_reset, price_update_step]⟩

/-- C4: on an empty frame, a frame with fewer than 26 rows, or a frame
with any required indicator missing on the latest or previous row,
`check_signals` returns no signal and emits nothing, and the loop's
signal-check step leaves the position and entry price unchanged with no
BUY/SELL event. -/
theorem signal_gating (cfg : TradingConfig) (sent : SentimentState)
    (df : List Row) (s : TrackerState) (current_price : Option ℚ)
    (h : df.length < 26 ∨
      ∃ latest prev rest, df.reverse = latest :: prev :: rest ∧
        (latest.close = none ∨ latest.ma5 = none ∨ latest.ma25 = none ∨
          latest.rsi = none ∨ latest.macd = none ∨
          latest.macd_signal = none ∨ prev.ma5 = none ∨ prev.ma25 = none ∨
          prev.macd = none ∨ prev.macd_signal = none)) :
    check_signals cfg sent df = (none, []) ∧
    signal_check_step cfg sent s df current_price = (s, []) := by
  have hcs : check_signals cfg sent df = (none, []) := by
    rcases h with hlen | ⟨latest, prev, rest, hrev, hnull⟩
    · simp [check_signals, hlen]
    · by_cases hlen : df.length < 26
      · simp [check_signals, hlen]
      · unfold check_signals
        rw [if_neg hlen, hrev]
        rcases hnull with h0|h0|h0|h0|h0|h0|h0|h0|h0|h0 <;> simp [h0]
  refine ⟨hcs, ?_⟩
  by_cases hp : s.position = none <;> simp [signal_check_step, hcs, hp]

/-- Witness for C4 at the empty frame. -/
theorem signal_gating_witness :
    check_signals ⟨5, 10, true, 1/2⟩ ⟨none, 0⟩ [] = (none, []) ∧
    signal_check_step ⟨5, 10, true, 1/2⟩ ⟨none, 0⟩ initState []
        (some 100) = (initState, []) :=
  signal_gating ⟨5, 10, true, 1/2⟩ ⟨none, 0⟩ [] initState (some 100)
    (Or.inl (by simp))

/-- Closed form of the returned signal of `check_signals` on a well-formed
frame: BUY when `buy_score >= 0.6`, else SELL when `sell_score <= -0.6`,
else no signal, with the scores written out. -/
theorem check_signals_fst_eq (cfg : TradingConfig) (sent : SentimentState)
    (df : List Row) (latest prev : Row) (rest : List Row)
    (price ma5 ma25 rsi macd_val macd_sig prev_ma5 prev_ma25 prev_macd_val
      prev_macd_sig : ℚ)
    (hlen : 26 ≤ df.length) (hrev : df.reverse = latest :: prev :: rest)
    (h1 : latest.close = some price) (h2 : latest.ma5 = some ma5)
    (h3 : latest.ma25 = some ma25) (h4 : latest.rsi = some rsi)
    (h5 : latest.macd = some macd_val)
    (h6 : latest.macd_signal = some macd_sig)
    (h7 : prev.ma5 = some prev_ma5) (h8 : prev.ma25 = some prev_ma25)
    (h9 : prev.macd = some prev_macd_val)
    (h10 : prev.macd_signal = some prev_macd_sig) :
    (check_signals cfg sent df).1 =
      (if (if ((prev_ma5 ≤ prev_ma25 ∧ ma5 > ma25) ∧ rsi < 50) ∧
            (prev_macd_val ≤ prev_macd_sig ∧ macd_val > macd_sig) then
          (1 : ℚ) else 0) +
          (if cfg.sentiment_influence_enabled ∧
              sent.current_sentiment ≠ none then
            sent.sentiment_score * cfg.sentiment_influence_weight
          else 0) ≥ 6/10 then some "BUY"
       else if (if ((prev_ma5 ≥ prev_ma25 ∧ ma5 < ma25) ∧ rsi > 50) ∧
            (prev_macd_val ≥ prev_macd_sig ∧ macd_val < macd_sig) then
          (-1 : ℚ) else 0) -
          (if cfg.sentiment_influence_enabled ∧
              sent.current_sentiment ≠ none then
            sent.sentiment_score * cfg.sentiment_influence_weight
          else 0) ≤ -(6/10) then some "SELL"
       else none) := by
  unfold check_signals
  rw [if_neg (not_lt.mpr hlen), hrev]
  simp only [h1, h2, h3, h4, h5, h6, h7, h8, h9, h10, Option.isNone_some,
    Bool.or_self, Bool.or_false, Option.getD_some, Bool.and_eq_true,
    Bool.or_eq_true, decide_eq_true_eq, apply_ite Prod.fst,
    Bool.false_eq_true, if_false]

/-- C3: on a frame of at least 26 rows whose required indicators are all
present and when the sentiment factor is 0, `check_signals` returns BUY
exactly when the technical BUY condition holds: MA5 crosses above MA25,
RSI < 50, and the MACD line crosses above its signal; in particular an MA
crossover alone without RSI < 50 does not produce BUY. -/
theorem buy_signal_iff (cfg : TradingConfig) (sent : SentimentState)
    (df : List Row) (latest prev : Row) (rest : List Row)
    (price ma5 ma25 rsi macd_val macd_sig prev_ma5 prev_ma25 prev_macd_val
      prev_macd_sig : ℚ)
    (hlen : 26 ≤ df.length) (hrev : df.reverse = latest :: prev :: rest)
    (h1 : latest.close = some price) (h2 : latest.ma5 = some ma5)
    (h3 : latest.ma25 = some ma25) (h4 : latest.rsi = some rsi)
    (h5 : latest.macd = some macd_val)
    (h6 : latest.macd_signal = some macd_sig)
    (h7 : prev.ma5 = some prev_ma5) (h8 : prev.ma25 = some prev_ma25)
    (h9 : prev.macd = some prev_macd_val)
    (h10 : prev.macd_signal = some prev_macd_sig)
    (hsf : (if cfg.sentiment_influence_enabled ∧
          sent.current_sentiment ≠ none then
        sent.sentiment_score * cfg.sentiment_influence_weight
      else 0) = 0) :
    (check_signals cfg sent df).1 = some "BUY" ↔
      ((prev_ma5 ≤ prev_ma25 ∧ ma5 > ma25) ∧ rsi < 50 ∧
        (prev_macd_val ≤ prev_macd_sig ∧ macd_val > macd_sig)) := by
  rw [check_signals_fst_eq cfg sent df latest prev rest price ma5 ma25 rsi
    macd_val macd_sig prev_ma5 prev_ma25 prev_macd_val prev_macd_sig hlen
    hrev h1 h2 h3 h4 h5 h6 h7 h8 h9 h10, hsf]
  by_cases hb : ((prev_ma5 ≤ prev_ma25 ∧ ma5 > ma25) ∧ rsi < 50) ∧
      (prev_macd_val ≤ prev_macd_sig ∧ macd_val > macd_sig)
  · rw [if_pos hb, if_pos (by norm_num : ((1 : ℚ) + 0 ≥ 6/10))]
    simp only [true_iff]
    tauto
  · rw [if_neg hb, if_neg (by norm_num : ¬ ((0 : ℚ) + 0 ≥ 6/10))]
    by_cases hs : ((prev_ma5 ≥ prev_ma25 ∧ ma5 < ma25) ∧ rsi > 50) ∧
        (prev_macd_val ≥ prev_macd_sig ∧ macd_val < macd_sig)
    · rw [if_pos hs, if_pos (by norm_num : ((-1 : ℚ) - 0 ≤ -(6/10)))]
      constructor
      · intro hcontra
        exact absurd hcontra (by simp)
      · intro hrhs
        exact absurd hrhs (by tauto)
    · rw [if_neg hs, if_neg (by norm_num : ¬ ((0 : ℚ) - 0 ≤ -(6/10)))]
      constructor
      · intro hcontra
        exact absurd hcontra (by simp)
      · intro hrhs
        exact absurd hrhs (by tauto)

/-- The latest row of the C3 witness frame: MA5/MA25 and MACD crossovers
just happened and RSI is below 50. -/
def latestC3 : Row := ⟨some 100, some 2, some 1, some 40, some 1, some 0⟩

/-- The previous row of the C3 witness frame. -/
def prevC3 : Row := ⟨some 99, some 1, some 1, some 45, some 0, some 0⟩

/-- A 26-row candle frame whose last two rows realize the technical BUY
condition. -/
def dfC3 : List Row := List.replicate 24 prevC3 ++ [prevC3, latestC3]

/-- Witness for C3: on the concrete 26-row frame with the technical BUY
condition true and no sentiment result, `check_signals` returns BUY. -/
theorem buy_signal_iff_witness :
    (check_signals ⟨5, 10, true, 1/2⟩ ⟨none, 0⟩ dfC3).1 = some "BUY" := by
  refine (buy_signal_iff ⟨5, 10, true, 1/2⟩ ⟨none, 0⟩ dfC3 latestC3 prevC3
    (List.replicate 24 prevC3) 100 2 1 40 1 0 1 1 0 0
    (by simp [dfC3]) ?_ rfl rfl rfl rfl rfl rfl rfl rfl rfl rfl
    (by simp)).mpr (by norm_num)
  simp [dfC3]

/-- `wellBracketed` splits over concatenation, threading the flag. -/
theorem wellBracketed_append (f : Bool) (xs ys : List Event) :
    wellBracketed f (xs ++ ys) =
      (wellBracketed f xs && wellBracketed (posFlagAfterList f xs) ys) := by
  induction xs generalizing f with
  | nil => simp [wellBracketed, posFlagAfterList]
  | cons e es ih =>
    simp [wellBracketed, posFlagAfterList, List.foldl_cons, ih,
      Bool.and_assoc]

/-- One non-balance operation emits a well-bracketed event burst relative
to the state's open/closed flag, and the flag after the burst matches the
new state. -/
theorem step_wellBracketed (cfg : TradingConfig) (s : TrackerState)
    (op : Op) (hop : op.isBalanceCheck = false) :
    wellBracketed (posFlag s) (step cfg s op).2 = true ∧
    posFlagAfterList (posFlag s) (step cfg s op).2 =
      posFlag (step cfg s op).1 := by
  rcases s with ⟨pos, ep⟩
  cases op with
  | trade signal price =>
    cases price with
    | none =>
      simp [step, execute_trade, wellBracketed, posFlagAfterList, posFlag]
    | some p =>
      by_cases hp : p = 0
      · simp [step, execute_trade, hp, wellBracketed, posFlagAfterList,
          posFlag]
      · by_cases hbuy : signal = "BUY" ∧ pos = none
        · simp [step, execute_trade, hp, hbuy, wellBracketed, posFlagAfter,
            posFlagAfterList, posFlag, isOpenEvent, isCloseEvent, hbuy.2]
        · by_cases hsell : signal = "SELL" ∧ pos = some Pos.long
          · simp [step, execute_trade, hp, hbuy, hsell, wellBracketed,
              posFlagAfter, posFlagAfterList, posFlag, isOpenEvent,
              isCloseEvent, hsell.1, hsell.2]
          · simp [step, execute_trade, hp, hbuy, hsell, wellBracketed,
              posFlagAfterList, posFlag]
  | stopCheck price =>
    cases pos with
    | none =>
      simp [step, check_stop_conditions, wellBracketed, posFlagAfterList,
        posFlag]
    | some side =>
      cases side
      cases ep with
      | none =>
        simp [step, check_stop_conditions, wellBracketed, posFlagAfterList,
          posFlag]
      | some entry =>
        cases price with
        | none =>
          simp [step, check_stop_conditions, wellBracketed,
            posFlagAfterList, posFlag]
        | some p =>
          by_cases hsl : p ≤ entry * (1 - cfg.stop_loss_percent / 100)
          · simp [step, check_stop_conditions, hsl, wellBracketed,
              posFlagAfter, posFlagAfterList, posFlag, isOpenEvent,
              isCloseEvent]
          · by_cases htp : p ≥ entry * (1 + cfg.take_profit_percent / 100)
            · simp [step, check_stop_conditions, hsl, htp, wellBracketed,
                posFlagAfter, posFlagAfterList, posFlag, isOpenEvent,
                isCloseEvent]
            · simp [step, check_stop_conditions, hsl, htp, wellBracketed,
                posFlagAfterList, posFlag]
  | balanceCheck free_balance => simp [Op.isBalanceCheck] at hop

/-- Running any sequence of non-balance operations from any state yields a
well-bracketed event trace relative to the starting open/closed flag. -/
theorem run_wellBracketed (cfg : TradingConfig) (ops : List Op) :
    ∀ s : TrackerState, (∀ op ∈ ops, op.isBalanceCheck = false) →
      wellBracketed (posFlag s) (run cfg s ops).2 = true := by
  induction ops with
  | nil => intro s _; simp [run, wellBracketed]
  | cons op ops ih =>
    intro s h
    have hop := h op (List.mem_cons_self op ops)
    have hstep := step_wellBracketed cfg s op hop
    have htail := ih (step cfg s op).1 fun o ho => h o (List.mem_cons_of_mem op ho)
    simp only [run, wellBracketed_append, hstep.1, hstep.2, htail,
      Bool.true_and]

/-- C2: for every sequence of `execute_trade` / `check_stop_conditions`
calls starting from the initial flat state, the emitted
BUY/SELL/stop-loss/take-profit events are well bracketed: a BUY is emitted
only while no position is open, and a SELL, stop-loss, or take-profit
event only while a position is open — so at most one position is open at
any time and every close event is preceded by the BUY that opened it with
no intervening close. -/
theorem position_event_exclusivity (cfg : TradingConfig) (ops : List Op)
    (h : ∀ op ∈ ops, op.isBalanceCheck = false) :
    wellBracketed false (run cfg initState ops).2 = true := by
  have := run_wellBracketed cfg ops initState h
  simpa [posFlag, initState] using this

/-- Witness for C2 on a concrete trade sequence: BUY, a stop-loss close,
a rejected SELL while flat, then BUY and SELL. -/
theorem position_event_exclusivity_witness :
    wellBracketed false (run ⟨5, 10, true, 1/2⟩ initState
      [Op.trade "BUY" (some 100), Op.stopCheck (some 94),
        Op.trade "SELL" (some 90), Op.trade "BUY" (some 91),
        Op.trade "SELL" (some 95)]).2 = true :=
  position_event_exclusivity ⟨5, 10, true, 1/2⟩
    [Op.trade "BUY" (some 100), Op.stopCheck (some 94),
      Op.trade "SELL" (some 90), Op.trade "BUY" (some 91),
      Op.trade "SELL" (some 95)] (by decide)

/-- Every operation — balance inference included — preserves "a defined
entry price implies an open long position". -/
theorem step_entry_implies_long (cfg : TradingConfig) (s : TrackerState)
    (op : Op)
    (h : s.entry_price.isSome = true → s.position = some Pos.long) :
    (step cfg s op).1.entry_price.isSome = true →
      (step cfg s op).1.position = some Pos.long := by
  rcases s with ⟨pos, ep⟩
  cases op with
  | trade signal price =>
    cases price with
    | none => exact h
    | some p =>
      by_cases hp : p = 0
      · simpa [step, execute_trade, hp] using h
      · by_cases hbuy : signal = "BUY" ∧ pos = none
        · simp [step, execute_trade, hp, hbuy]
        · by_cases hsell : signal = "SELL" ∧ pos = some Pos.long
          · simp [step, execute_trade, hp, hbuy, hsell]
          · simpa [step, execute_trade, hp, hbuy, hsell] using h
  | stopCheck price =>
    cases pos with
    | none => simp only [step, check_stop_conditions]; exact h
    | some side =>
      cases side
      cases ep with
      | none => simp [step, check_stop_conditions]
      | some entry =>
        cases price with
        | none => simp [step, check_stop_conditions]
        | some p =>
          by_cases hsl : p ≤ entry * (1 - cfg.stop_loss_percent / 100)
          · simp [step, check_stop_conditions, hsl]
          · by_cases htp : p ≥ entry * (1 + cfg.take_profit_percent / 100)
            · simp [step, check_stop_conditions, hsl, htp]
            · simp [step, check_stop_conditions, hsl, htp]
  | balanceCheck free_balance =>
    by_cases hb : free_balance > 1/10
    · have hstep : step cfg ⟨pos, ep⟩ (Op.balanceCheck free_balance) =
          ({ position := some Pos.long, entry_price := ep }, []) := by
        simp only [step, check_account_balance, if_pos hb]
      rw [hstep]
      intro _
      rfl
    · have hstep : step cfg ⟨pos, ep⟩ (Op.balanceCheck free_balance) =
          (⟨pos, ep⟩, []) := by
        simp only [step, check_account_balance, if_neg hb]
      rw [hstep]
      exact h

/-- The entry-price/position implication holds after any run. -/
theorem run_entry_implies_long (cfg : TradingConfig) (ops : List Op) :
    ∀ s : TrackerState,
      (s.entry_price.isSome = true → s.position = some Pos.long) →
      ((run cfg s ops).1.entry_price.isSome = true →
        (run cfg s ops).1.position = some Pos.long) := by
  induction ops with
  | nil => intro s h; simpa [run] using h
  | cons op ops ih =>
    intro s h
    simpa [run] using ih (step cfg s op).1
      (step_entry_implies_long cfg s op h)

/-- C5 (amended): in every reachable state of the tracker, a defined
entry price implies the position side is long.  The converse fails:
balance inference marks the position long without recording an entry
price (see the counterexample). -/
theorem entry_price_defined_implies_long (cfg : TradingConfig)
    (ops : List Op)
    (h : (run cfg initState ops).1.entry_price.isSome = true) :
    (run cfg initState ops).1.position = some Pos.long :=
  run_entry_implies_long cfg ops initState (by simp [initState]) h

/-- Witness for amended C5 after a single BUY. -/
theorem entry_price_defined_implies_long_witness :
    (run ⟨5, 10, true, 1/2⟩ initState
      [Op.trade "BUY" (some 100)]).1.entry_price.isSome = true ∧
    (run ⟨5, 10, true, 1/2⟩ initState
      [Op.trade "BUY" (some 100)]).1.position = some Pos.long := by
  have he : (run ⟨5, 10, true, 1/2⟩ initState
      [Op.trade "BUY" (some 100)]).1.entry_price.isSome = true := by
    norm_num [run, step, execute_trade, initState]
  exact ⟨he, entry_price_defined_implies_long ⟨5, 10, true, 1/2⟩
    [Op.trade "BUY" (some 100)] he⟩

/-- Counterexample to C5 as stated: after balance inference with free
balance 1 (> 0.1) from a fresh flat session, the reachable state is long
with no entry price, refuting "entry price is defined iff side is
long". -/
theorem entry_iff_long_counterexample :
    ¬ (((run ⟨5, 10, true, 1/2⟩ initState
          [Op.balanceCheck 1]).1.entry_price.isSome = true) ↔
        ((run ⟨5, 10, true, 1/2⟩ initState
          [Op.balanceCheck 1]).1.position = some Pos.long)) := by
  have h : (run ⟨5, 10, true, 1/2⟩ initState [Op.balanceCheck 1]).1 =
      ⟨some Pos.long, none⟩ := by
    norm_num [run, step, check_account_balance, initState]
  rw [h]
  simp

/-- The cache key is invariant under permutation of the headline list. -/
theorem sortKey_perm (h1 h2 : List String) (hperm : h2.Perm h1) :
    sortKey h2 = sortKey h1 := by
  unfold sortKey
  exact List.eq_of_perm_of_sorted
    ((List.perm_insertionSort _ h2).trans
      (hperm.trans (List.perm_insertionSort _ h1).symm))
    (List.sorted_insertionSort _ h2) (List.sorted_insertionSort _ h1)

/-- C6: with the DeepSeek key configured, a nonempty headline list with no
fresh cache entry, and a first call whose response parses to `result`, the
first call performs the network call and caches `result`; a second call
within the 3600-second TTL with the same headline set in any order returns
the identical cached triple, leaves the cache unchanged, and issues no
network call — whatever the network would have answered. -/
theorem sentiment_cache_idempotent (cfg : NewsConfig) (cache : NewsCache)
    (t1 t2 : ℚ) (h1 h2 : List String) (result : NewsResult)
    (outcome2 : DeepSeekOutcome)
    (hkey : cfg.deepseek_key_present = true) (hne : h1 ≠ [])
    (hmiss : ∀ e, cacheLookup cache (sortKey h1) = some e →
      ¬ (t1 - e.1 < 3600))
    (hperm : h2.Perm h1) (_ht1 : t1 ≤ t2) (ht2 : t2 - t1 < 3600) :
    (call_deepseek_for_analysis cfg cache t1 h1
        (DeepSeekOutcome.parsed result)).1 = result ∧
    (call_deepseek_for_analysis cfg cache t1 h1
        (DeepSeekOutcome.parsed result)).2.2 = true ∧
    call_deepseek_for_analysis cfg
        (call_deepseek_for_analysis cfg cache t1 h1
          (DeepSeekOutcome.parsed result)).2.1 t2 h2 outcome2 =
      (result,
        (call_deepseek_for_analysis cfg cache t1 h1
          (DeepSeekOutcome.parsed result)).2.1, false) := by
  have hfirst : call_deepseek_for_analysis cfg cache t1 h1
      (DeepSeekOutcome.parsed result) =
      (result, cacheInsert cache (sortKey h1) t1 result, true) := by
    unfold call_deepseek_for_analysis
    cases hc : cacheLookup cache (sortKey h1) with
    | none => simp [hc, hkey, hne]
    | some e =>
      obtain ⟨cache_time, cache_data⟩ := e
      have hstale := hmiss ⟨cache_time, cache_data⟩ hc
      simp only at hstale
      simp [hc, hstale, hkey, hne]
  have hkey2 : sortKey h2 = sortKey h1 := sortKey_perm h1 h2 hperm
  refine ⟨by rw [hfirst], by rw [hfirst], ?_⟩
  rw [hfirst]
  unfold call_deepseek_for_analysis
  rw [hkey2]
  simp [cacheInsert, cacheLookup, ht2]

/-- Witness for C6: ["b","a"] analysed at time 0 then queried as
["a","b"] at time 10 with the endpoint down — the cached triple is
returned with no network call. -/
theorem sentiment_cache_idempotent_witness :
    call_deepseek_for_analysis ⟨true, true⟩
        (call_deepseek_for_analysis ⟨true, true⟩ [] 0 ["b", "a"]
          (DeepSeekOutcome.parsed ("digest", "positive", 1/2))).2.1
        10 ["a", "b"] (DeepSeekOutcome.netError "down") =
      (("digest", "positive", 1/2),
        (call_deepseek_for_analysis ⟨true, true⟩ [] 0 ["b", "a"]
          (DeepSeekOutcome.parsed ("digest", "positive", 1/2))).2.1,
        false) :=
  (sentiment_cache_idempotent ⟨true, true⟩ [] 0 10 ["b", "a"] ["a", "b"]
    ("digest", "positive", 1/2) (DeepSeekOutcome.netError "down") rfl
    (by simp) (by simp [cacheLookup]) (List.Perm.swap "b" "a" [])
    (by norm_num) (by norm_num)).2.2

/-- The BUY/SELL confidence formula exactly as the claim states it:
`min(100, |dominant_score| / (factor_count × 2) × 100)` with
`factor_count = 1 + (1 if a sentiment result exists)`. -/
def claimedConfidence (dominant_score : ℚ) (has_sentiment : Bool) : ℚ :=
  min 100 (|dominant_score| /
    ((1 + (if has_sentiment then 1 else 0)) * 2) * 100)

/-- The latest row of the C8 frame: no technical signal (flat MAs and
MACD, RSI at 50). -/
def latestC8 : Row := ⟨some 100, some 1, some 1, some 50, some 0, some 0⟩

/-- The previous row of the C8 frame. -/
def prevC8 : Row := ⟨some 99, some 1, some 1, some 45, some 0, some 0⟩

/-- A 26-row frame on which neither technical signal is true, so a BUY can
only arise from the sentiment factor. -/
def dfC8 : List Row := List.replicate 24 prevC8 ++ [prevC8, latestC8]

/-- Counterexample to C8 as stated: with sentiment weight 0.7 and score 1
(sentiment factor 0.7) and no technical signal, `check_signals` emits BUY
with confidence 0 — the source computes a nonzero confidence only when a
technical signal is true — while the claim's formula
`min(100, |buy_score| / (factor_count × 2) × 100)` gives 35/2 ≠ 0; the
dominant score here is `buy_score = 0.7`. -/
theorem confidence_formula_counterexample :
    check_signals ⟨5, 10, true, 7/10⟩ ⟨some "positive", 1⟩ dfC8 =
      (some "BUY", [Event.signalStatus "BUY" 0]) ∧
    claimedConfidence (7/10) true = 35/2 ∧ (0 : ℚ) ≠ 35/2 := by
  refine ⟨?_, ?_, by norm_num⟩
  · norm_num [check_signals, dfC8, latestC8, prevC8, truthyStr,
      Option.some_ne_none "positive"]
  · rw [claimedConfidence, abs_of_pos (by norm_num : (0 : ℚ) < 7/10)]
    norm_num [min_def]

/-- The signal decision and emission formula per the amended C8 claim:
technical conditions and scores as in §4.3; on BUY/SELL the confidence is
`⌊min(100, |total_score| / (factor_count × 2) × 100)⌋` — with
`total_score = buy_score` if `buy_score > 0` else `sell_score`, and
`factor_count = 1 + (1 if a sentiment result exists)` — when at least one
technical signal is true, and 0 otherwise; on NEUTRAL the confidence is
`max(20, 100 − ⌊|buy_score − sell_score| × 50⌋)`. -/
def spec_signal (cfg : TradingConfig) (sent : SentimentState)
    (ma5 ma25 rsi macd_val macd_sig prev_ma5 prev_ma25 prev_macd_val
      prev_macd_sig : ℚ) : Option String × List Event :=
  let technical_buy : Bool :=
    (decide (prev_ma5 ≤ prev_ma25) && decide (ma5 > ma25)) &&
      decide (rsi < 50) &&
      (decide (prev_macd_val ≤ prev_macd_sig) && decide (macd_val > macd_sig))
  let technical_sell : Bool :=
    (decide (prev_ma5 ≥ prev_ma25) && decide (ma5 < ma25)) &&
      decide (rsi > 50) &&
      (decide (prev_macd_val ≥ prev_macd_sig) && decide (macd_val < macd_sig))
  let sentiment_factor : ℚ :=
    if cfg.sentiment_influence_enabled ∧ sent.current_sentiment ≠ none then
      sent.sentiment_score * cfg.sentiment_influence_weight
    else 0
  let buy_score : ℚ := (if technical_buy then 1 else 0) + sentiment_factor
  let sell_score : ℚ := (if technical_sell then -1 else 0) - sentiment_factor
  let confidence : ℤ :=
    if technical_buy || technical_sell then
      let total_score := if buy_score > 0 then buy_score else sell_score
      let factor_count : ℚ :=
        1 + (if truthyStr sent.current_sentiment then 1 else 0)
      ⌊min 100 (|total_score| / (factor_count * 2) * 100)⌋
    else 0
  if buy_score ≥ 6/10 then
    (some "BUY", [Event.signalStatus "BUY" confidence])
  else if sell_score ≤ -(6/10) then
    (some "SELL", [Event.signalStatus "SELL" confidence])
  else
    (none, [Event.signalStatus "NEUTRAL"
      (max 20 (100 - ⌊|buy_score - sell_score| * 50⌋))])

/-- C8 (amended): on every well-formed frame, the signal and confidence
emitted by `check_signals` are exactly those of the amended formula
`spec_signal`. -/
theorem confidence_amended (cfg : TradingConfig) (sent : SentimentState)
    (df : List Row) (latest prev : Row) (rest : List Row)
    (price ma5 ma25 rsi macd_val macd_sig prev_ma5 prev_ma25 prev_macd_val
      prev_macd_sig : ℚ)
    (hlen : 26 ≤ df.length) (hrev : df.reverse = latest :: prev :: rest)
    (h1 : latest.close = some price) (h2 : latest.ma5 = some ma5)
    (h3 : latest.ma25 = some ma25) (h4 : latest.rsi = some rsi)
    (h5 : latest.macd = some macd_val)
    (h6 : latest.macd_signal = some macd_sig)
    (h7 : prev.ma5 = some prev_ma5) (h8 : prev.ma25 = some prev_ma25)
    (h9 : prev.macd = some prev_macd_val)
    (h10 : prev.macd_signal = some prev_macd_sig) :
    check_signals cfg sent df =
      spec_signal cfg sent ma5 ma25 rsi macd_val macd_sig prev_ma5
        prev_ma25 prev_macd_val prev_macd_sig := by
  unfold check_signals spec_signal
  rw [if_neg (not_lt.mpr hlen), hrev]
  simp only [h1, h2, h3, h4, h5, h6, h7, h8, h9, h10, Option.isNone_some,
    Bool.or_self, Bool.or_false, Option.getD_some, Bool.false_eq_true,
    if_false]

/-- Witness for amended C8 at the concrete C8 frame. -/
theorem confidence_amended_witness :
    check_signals ⟨5, 10, true, 7/10⟩ ⟨some "positive", 1⟩ dfC8 =
      spec_signal ⟨5, 10, true, 7/10⟩ ⟨some "positive", 1⟩
        1 1 50 0 0 1 1 0 0 :=
  confidence_amended ⟨5, 10, true, 7/10⟩ ⟨some "positive", 1⟩ dfC8
    latestC8 prevC8 (List.replicate 24 prevC8) 100 1 1 50 0 0 1 1 0 0
    (by simp [dfC8]) (by simp [dfC8]) rfl rfl rfl rfl rfl rfl rfl rfl rfl
    rfl

end ShellMonitor
